import Mathlib

/-!
Shallow embedding of the request-boundary trust layer of the
Taleji_Rust_Leptos repository (src/auth.rs, src/security.rs, src/error.rs,
src/models.rs), together with theorems settling the spec claims.

Modelling conventions:

* Rust `i64` timestamps (chrono `DateTime<Utc>::timestamp()`) are `Int`
  seconds; `Duration::hours(h)` is `3600 * h` seconds.
* `std::time::Instant` values in the rate limiter are `Nat` (monotone clock
  readings in seconds); `Instant::duration_since` is truncated `Nat`
  subtraction (the code only ever subtracts an earlier reading).
* Nondeterministic inputs of the Rust code (the two `Utc::now()` calls, the
  `Uuid::new_v4` token id, the database-assigned row id and row timestamps,
  and the bcrypt `hash`/`verify` primitives) are passed as explicit
  parameters, making each function a pure function of its inputs.
* The HMAC-SHA256 JWT signature is modelled as an ideal MAC: the tag of a
  payload under a secret is the pair `(secret, payload)` itself, so tag
  equality holds exactly when both the secret and the payload agree.
-/

/-- `UserRole` from src/models.rs: the three-variant role enum. -/
inductive UserRole
  | User
  | Author
  | Admin
deriving DecidableEq, Repr

/-- `AppError` from src/error.rs. `Database` carries the display string of
the underlying `sqlx::Error`; every other variant mirrors its Rust payload.
There is no `Conflict` variant in the source. -/
inductive AppError
  | Database (msg : String)
  | Validation (msg : String)
  | NotFound (msg : String)
  | Unauthorized
  | Forbidden (msg : String)
  | RateLimitExceeded
  | Internal (msg : String)
  | Config (msg : String)
deriving DecidableEq, Repr

/-- `User` from src/models.rs (the two `DateTime<Utc>` fields as `Int`
seconds). -/
structure User where
  id : Int
  username : String
  email : String
  password_hash : String
  display_name : String
  bio : Option String
  avatar_url : Option String
  role : UserRole
  email_verified : Bool
  is_active : Bool
  created_at : Int
  updated_at : Int
deriving DecidableEq, Repr

/-- `UserProfile` from src/models.rs: the public projection, with no
password-hash field. -/
structure UserProfile where
  id : Int
  username : String
  display_name : String
  bio : Option String
  avatar_url : Option String
  role : UserRole
  created_at : Int
deriving DecidableEq, Repr

/-- `impl From<User> for UserProfile` from src/models.rs. -/
def UserProfile.ofUser (u : User) : UserProfile :=
  ⟨u.id, u.username, u.display_name, u.bio, u.avatar_url, u.role, u.created_at⟩

/-- `Claims` from src/auth.rs: the JWT payload. -/
structure Claims where
  sub : Int
  username : String
  role : UserRole
  exp : Int
  iat : Int
  jti : String
deriving DecidableEq, Repr

/-- An encoded JWT: payload plus its HMAC tag, the tag modelled as the
`(secret, payload)` pair (ideal MAC, see the file header). -/
structure Jwt where
  claims : Claims
  mac : String × Claims
deriving DecidableEq, Repr

/-- `AuthResponse` from src/models.rs; the `token` field holds the encoded
JWT. -/
structure AuthResponse where
  user : UserProfile
  token : Jwt
  expires_at : Int
deriving DecidableEq, Repr

/-- `LoginInput` from src/models.rs. -/
structure LoginInput where
  email_or_username : String
  password : String
  remember_me : Option Bool
deriving DecidableEq, Repr

/-- `RegisterInput` from src/models.rs. -/
structure RegisterInput where
  username : String
  email : String
  password : String
  confirm_password : String
  display_name : String
deriving DecidableEq, Repr

/-- The construction-time state of `AuthService` from src/auth.rs. -/
structure AuthService where
  jwt_secret : String
  jwt_expiry_hours : Int
deriving DecidableEq, Repr

/-- `AuthService::check_permission` from src/auth.rs lines 210-216,
matching on the required role exactly as the source does. -/
def AuthService.check_permission (user_role required_role : UserRole) : Bool :=
  match required_role with
  | UserRole.User => true
  | UserRole.Author =>
      match user_role with
      | UserRole.Author => true
      | UserRole.Admin => true
      | _ => false
  | UserRole.Admin =>
      match user_role with
      | UserRole.Admin => true
      | _ => false

/-- C7: check_permission(held, required) is a pure total function
satisfying the full 9-entry truth table: required = User gives true for
every held role; required = Author gives true iff held is Author or Admin;
required = Admin gives true iff held is Admin. -/
theorem check_permission_truth_table :
    ∀ held : UserRole,
      AuthService.check_permission held UserRole.User = true
      ∧ (AuthService.check_permission held UserRole.Author = true
          ↔ (held = UserRole.Author ∨ held = UserRole.Admin))
      ∧ (AuthService.check_permission held UserRole.Admin = true
          ↔ held = UserRole.Admin) := by
  intro held
  cases held <;> simp [AuthService.check_permission]

/-- `AuthService::generate_token` from src/auth.rs lines 65-87. `now` is the
single `Utc::now()` reading taken inside the function and `jti` the freshly
generated `Uuid::new_v4` string; `exp = now + Duration::hours(jwt_expiry_hours)`.
Encoding always succeeds in this model (`jsonwebtoken::encode` fails only on
serialization faults that cannot occur for these claims). -/
def AuthService.generate_token (svc : AuthService) (user : User)
    (now : Int) (jti : String) : Jwt :=
  let claims : Claims :=
    ⟨user.id, user.username, user.role, now + 3600 * svc.jwt_expiry_hours, now, jti⟩
  ⟨claims, (svc.jwt_secret, claims)⟩

/-- The default leeway of `jsonwebtoken::Validation::new(Algorithm::HS256)`:
60 seconds (the crate's documented default, applied to the `exp` check). -/
def jwtDefaultLeeway : Int := 60

/-- `AuthService::validate_token` from src/auth.rs lines 90-101.
`jsonwebtoken::decode` with `Validation::new(Algorithm::HS256)` verifies the
HMAC tag and then rejects as expired exactly when `exp < now - leeway` with
the default `leeway = 60`; every decode failure is mapped to
`AppError::Unauthorized`. -/
def AuthService.validate_token (svc : AuthService) (token : Jwt)
    (now : Int) : Except AppError Claims :=
  if token.mac = (svc.jwt_secret, token.claims) then
    if token.claims.exp < now - jwtDefaultLeeway then
      Except.error AppError.Unauthorized
    else
      Except.ok token.claims
  else
    Except.error AppError.Unauthorized

/-- C1 counterexample: a validly signed token with `exp = 1000` checked at
`now = 1001` — strictly after its expiry instant — still validates
successfully, because `Validation::new` applies its default 60-second
leeway; the claim says this must fail with `Unauthorized`. -/
theorem validate_token_strict_expiry_counterexample :
    let svc : AuthService := ⟨"secret", 24⟩
    let c : Claims := ⟨1, "alice", UserRole.User, 1000, 0, "jti-1"⟩
    let tok : Jwt := ⟨c, ("secret", c)⟩
    1000 < 1001 ∧ svc.validate_token tok 1001 = Except.ok c := by
  constructor
  · decide
  · rfl

/-- C1 (amended): for a token whose tag verifies, validation at time `now`
fails with `Unauthorized` iff `now > expires_at + 60` (the 60-second default
leeway of `jsonwebtoken::Validation::new`), and validation one second before
`expires_at` succeeds. -/
theorem validate_token_expiry_leeway (svc : AuthService) (tok : Jwt)
    (now : Int) (hmac : tok.mac = (svc.jwt_secret, tok.claims)) :
    (svc.validate_token tok now = Except.error AppError.Unauthorized
        ↔ now > tok.claims.exp + 60)
    ∧ svc.validate_token tok (tok.claims.exp - 1) = Except.ok tok.claims := by
  constructor
  · unfold AuthService.validate_token jwtDefaultLeeway
    rw [if_pos hmac]
    constructor
    · intro h
      by_contra hn
      rw [if_neg (by omega)] at h
      exact Except.noConfusion h
    · intro h
      rw [if_pos (by omega)]
  · unfold AuthService.validate_token jwtDefaultLeeway
    rw [if_pos hmac, if_neg (by omega)]

/-- Witness for `validate_token_expiry_leeway` at a concrete service and
token. -/
theorem validate_token_expiry_leeway_witness :
    let svc : AuthService := ⟨"secret", 24⟩
    let c : Claims := ⟨1, "alice", UserRole.User, 1000, 0, "jti-1"⟩
    let tok : Jwt := ⟨c, ("secret", c)⟩
    (svc.validate_token tok 2000 = Except.error AppError.Unauthorized
        ↔ (2000 : Int) > c.exp + 60)
    ∧ svc.validate_token tok (c.exp - 1) = Except.ok c :=
  validate_token_expiry_leeway ⟨"secret", 24⟩
    ⟨⟨1, "alice", UserRole.User, 1000, 0, "jti-1"⟩,
      ("secret", ⟨1, "alice", UserRole.User, 1000, 0, "jti-1"⟩)⟩ 2000 rfl

/-- C5: issue/validate round-trip — validating a token issued for account
`A` under the same secret, at any instant no later than its expiry, succeeds
and yields claims with `subject = A.id` and `role = A.role`. -/
theorem token_round_trip (svc : AuthService) (user : User)
    (now val_now : Int) (jti : String)
    (hv : val_now ≤ now + 3600 * svc.jwt_expiry_hours) :
    svc.validate_token (svc.generate_token user now jti) val_now
        = Except.ok (svc.generate_token user now jti).claims
    ∧ (svc.generate_token user now jti).claims.sub = user.id
    ∧ (svc.generate_token user now jti).claims.role = user.role := by
  refine ⟨?_, rfl, rfl⟩
  unfold AuthService.validate_token AuthService.generate_token jwtDefaultLeeway
  simp only
  rw [if_pos trivial, if_neg (by omega)]

/-- Witness for `token_round_trip` at a concrete account and instant. -/
theorem token_round_trip_witness :
    let svc : AuthService := ⟨"secret", 24⟩
    let u : User := ⟨7, "bob", "bob@example.com", "ph", "Bob", none, none,
      UserRole.Author, true, true, 0, 0⟩
    svc.validate_token (svc.generate_token u 100 "id-1") 500
        = Except.ok (svc.generate_token u 100 "id-1").claims
    ∧ (svc.generate_token u 100 "id-1").claims.sub = u.id
    ∧ (svc.generate_token u 100 "id-1").claims.role = u.role :=
  token_round_trip ⟨"secret", 24⟩
    ⟨7, "bob", "bob@example.com", "ph", "Bob", none, none,
      UserRole.Author, true, true, 0, 0⟩ 100 500 "id-1" (by norm_num)

/-- The row predicate of the login query in src/auth.rs lines 157-169:
`WHERE (email = $1 OR username = $1) AND is_active = true`, with SQL `=` on
`text` being case-sensitive exact comparison. -/
def loginMatches (input : LoginInput) (u : User) : Bool :=
  (u.email == input.email_or_username || u.username == input.email_or_username)
    && u.is_active

/-- `AuthService::register_user` from src/auth.rs lines 104-152, with the
database as an explicit row list. The existence check is the
`SELECT COUNT(*) ... WHERE username = $1 OR email = $2` query (case-sensitive
exact matches); on a hit the function returns
`AppError::Validation("Username or email already exists")` before any insert.
Otherwise it hashes the password (`hash` models bcrypt), inserts the row
(`newId` and `createdAt` stand for the id and timestamps the database
assigns; `email_verified = false` and `is_active = true` are the schema
defaults, which live outside src/ and are irrelevant to the claims), then
generates the token at clock reading `now1` and computes the response
`expires_at` from the second clock reading `now2`. -/
def AuthService.register_user (svc : AuthService) (hash : String → String)
    (db : List User) (input : RegisterInput) (newId createdAt : Int)
    (now1 : Int) (jti : String) (now2 : Int) :
    Except AppError AuthResponse × List User :=
  if db.any (fun u => u.username == input.username || u.email == input.email) then
    (Except.error (AppError.Validation "Username or email already exists"), db)
  else
    let user : User := ⟨newId, input.username, input.email, hash input.password,
      input.display_name, none, none, UserRole.User, false, true,
      createdAt, createdAt⟩
    (Except.ok ⟨UserProfile.ofUser user, svc.generate_token user now1 jti,
        now2 + 3600 * svc.jwt_expiry_hours⟩,
      db ++ [user])

/-- `AuthService::login_user` from src/auth.rs lines 155-189. The query
returns the first active row matching the identifier (`List.find?`); a miss
and a failed password verification both produce
`AppError::Validation("Invalid credentials")`. `verify` models
`bcrypt::verify`; `now1` is the clock reading inside `generate_token` and
`now2` the later reading used for the response `expires_at`. -/
def AuthService.login_user (svc : AuthService) (verify : String → String → Bool)
    (db : List User) (input : LoginInput)
    (now1 : Int) (jti : String) (now2 : Int) : Except AppError AuthResponse :=
  match db.find? (loginMatches input) with
  | none => Except.error (AppError.Validation "Invalid credentials")
  | some user =>
    if verify input.password user.password_hash then
      Except.ok ⟨UserProfile.ofUser user, svc.generate_token user now1 jti,
        now2 + 3600 * svc.jwt_expiry_hours⟩
    else
      Except.error (AppError.Validation "Invalid credentials")

/-- C2 counterexample: registering a username that already exists fails with
`AppError.Validation "Username or email already exists"` — the `Validation`
error kind, not a `Conflict` kind (the source's `AppError` has no `Conflict`
variant at all) — while leaving the row list unchanged. -/
theorem register_conflict_kind_counterexample :
    let u0 : User := ⟨1, "alice", "alice@example.com", "H0", "Alice", none,
      none, UserRole.User, false, true, 0, 0⟩
    let inp : RegisterInput := ⟨"alice", "other@example.com", "password",
      "password", "Alice2"⟩
    AuthService.register_user ⟨"s", 24⟩ (fun _ => "H1") [u0] inp 2 0 0 "j" 0
      = (Except.error (AppError.Validation "Username or email already exists"),
          [u0]) := by
  rfl

/-- C2 (amended): whenever some row of the directory already holds the
requested username (case-sensitive exact match), `register_user` fails with
`AppError.Validation "Username or email already exists"` and returns the
directory unchanged — no insert is executed. -/
theorem register_existing_username_rejected (svc : AuthService)
    (hash : String → String) (db : List User) (input : RegisterInput)
    (newId createdAt now1 : Int) (jti : String) (now2 : Int)
    (hex : ∃ u ∈ db, u.username = input.username) :
    svc.register_user hash db input newId createdAt now1 jti now2
      = (Except.error (AppError.Validation "Username or email already exists"),
          db) := by
  obtain ⟨u, hu, hname⟩ := hex
  unfold AuthService.register_user
  rw [if_pos]
  simp only [List.any_eq_true]
  exact ⟨u, hu, by simp [hname]⟩

/-- Witness for `register_existing_username_rejected` at a concrete
directory and input. -/
theorem register_existing_username_rejected_witness :
    let u0 : User := ⟨1, "alice", "alice@example.com", "H0", "Alice", none,
      none, UserRole.User, false, true, 0, 0⟩
    let inp : RegisterInput := ⟨"alice", "new@example.com", "password",
      "password", "Alice2"⟩
    AuthService.register_user ⟨"s", 24⟩ (fun _ => "H1") [u0] inp 2 0 0 "j" 0
      = (Except.error (AppError.Validation "Username or email already exists"),
          [u0]) :=
  register_existing_username_rejected ⟨"s", 24⟩ (fun _ => "H1")
    [⟨1, "alice", "alice@example.com", "H0", "Alice", none, none,
      UserRole.User, false, true, 0, 0⟩]
    ⟨"alice", "new@example.com", "password", "password", "Alice2"⟩
    2 0 0 "j" 0
    ⟨⟨1, "alice", "alice@example.com", "H0", "Alice", none, none,
      UserRole.User, false, true, 0, 0⟩, by simp, rfl⟩

/-- C4: the three login failure causes — no row matches the identifier, every
matching row is inactive (even if the password would verify), and failed
password verification on a matching active row — all yield the identical
error value `AppError.Validation "Invalid credentials"` (same kind, same
message), so the external signal never reveals which cause occurred. -/
theorem login_failures_indistinguishable (svc : AuthService)
    (verify : String → String → Bool) (db : List User) (input : LoginInput)
    (now1 : Int) (jti : String) (now2 : Int) :
    ((∀ u ∈ db, u.email ≠ input.email_or_username
        ∧ u.username ≠ input.email_or_username) →
      svc.login_user verify db input now1 jti now2
        = Except.error (AppError.Validation "Invalid credentials"))
    ∧ ((∀ u ∈ db, (u.email = input.email_or_username
          ∨ u.username = input.email_or_username) → u.is_active = false) →
      svc.login_user verify db input now1 jti now2
        = Except.error (AppError.Validation "Invalid credentials"))
    ∧ (∀ u, db.find? (loginMatches input) = some u →
        verify input.password u.password_hash = false →
      svc.login_user verify db input now1 jti now2
        = Except.error (AppError.Validation "Invalid credentials")) := by
  refine ⟨?_, ?_, ?_⟩
  · intro h
    have hnone : db.find? (loginMatches input) = none := by
      rw [List.find?_eq_none]
      intro u hu
      obtain ⟨he, hn⟩ := h u hu
      simp [loginMatches, he, hn]
    unfold AuthService.login_user
    rw [hnone]
  · intro h
    have hnone : db.find? (loginMatches input) = none := by
      rw [List.find?_eq_none]
      intro u hu
      simp only [loginMatches, Bool.and_eq_true, Bool.or_eq_true, beq_iff_eq,
        not_and, Bool.not_eq_true]
      intro hm
      exact h u hu hm
    unfold AuthService.login_user
    rw [hnone]
  · intro u hfind hv
    unfold AuthService.login_user
    rw [hfind]
    simp [hv]

/-- Witness for `login_failures_indistinguishable`: all three failure causes
exercised at concrete inputs, each producing the same error value. -/
theorem login_failures_indistinguishable_witness :
    let svc : AuthService := ⟨"s", 24⟩
    let inp : LoginInput := ⟨"carol", "pw", none⟩
    let activeU : User := ⟨1, "carol", "carol@example.com", "H", "Carol",
      none, none, UserRole.User, false, true, 0, 0⟩
    let inactiveU : User := ⟨1, "carol", "carol@example.com", "H", "Carol",
      none, none, UserRole.User, false, false, 0, 0⟩
    svc.login_user (fun _ _ => true) [] inp 0 "j" 0
        = Except.error (AppError.Validation "Invalid credentials")
    ∧ svc.login_user (fun _ _ => true) [inactiveU] inp 0 "j" 0
        = Except.error (AppError.Validation "Invalid credentials")
    ∧ svc.login_user (fun _ _ => false) [activeU] inp 0 "j" 0
        = Except.error (AppError.Validation "Invalid credentials") :=
  ⟨(login_failures_indistinguishable ⟨"s", 24⟩ (fun _ _ => true) []
      ⟨"carol", "pw", none⟩ 0 "j" 0).1 (by simp),
   (login_failures_indistinguishable ⟨"s", 24⟩ (fun _ _ => true)
      [⟨1, "carol", "carol@example.com", "H", "Carol", none, none,
        UserRole.User, false, false, 0, 0⟩]
      ⟨"carol", "pw", none⟩ 0 "j" 0).2.1 (by decide),
   (login_failures_indistinguishable ⟨"s", 24⟩ (fun _ _ => false)
      [⟨1, "carol", "carol@example.com", "H", "Carol", none, none,
        UserRole.User, false, true, 0, 0⟩]
      ⟨"carol", "pw", none⟩ 0 "j" 0).2.2
      ⟨1, "carol", "carol@example.com", "H", "Carol", none, none,
        UserRole.User, false, true, 0, 0⟩ (by decide) rfl⟩

/-- C10: on every successful `register_user` or `login_user`, the response
`expires_at` comes from the second clock reading (taken after token
generation), so under a monotone clock it is at least the `exp` embedded in
the returned token, and strictly larger whenever the second reading is
strictly later. -/
theorem expires_at_second_clock_reading (svc : AuthService)
    (hash : String → String) (verify : String → String → Bool)
    (db : List User) (inputR : RegisterInput) (inputL : LoginInput)
    (newId createdAt now1 : Int) (jti : String) (now2 : Int)
    (hle : now1 ≤ now2) :
    (∀ resp db2,
        svc.register_user hash db inputR newId createdAt now1 jti now2
          = (Except.ok resp, db2) →
        resp.token.claims.exp ≤ resp.expires_at
        ∧ (now1 < now2 → resp.token.claims.exp < resp.expires_at))
    ∧ (∀ resp,
        svc.login_user verify db inputL now1 jti now2 = Except.ok resp →
        resp.token.claims.exp ≤ resp.expires_at
        ∧ (now1 < now2 → resp.token.claims.exp < resp.expires_at)) := by
  constructor
  · intro resp db2 h
    unfold AuthService.register_user at h
    split at h
    · simp at h
    · rw [Prod.mk.injEq] at h
      obtain ⟨h1, -⟩ := h
      rw [Except.ok.injEq] at h1
      subst h1
      simp only [AuthService.generate_token]
      constructor
      · omega
      · intro hlt
        omega
  · intro resp h
    unfold AuthService.login_user at h
    split at h
    · exact absurd h (by simp)
    · split at h
      · rw [Except.ok.injEq] at h
        subst h
        simp only [AuthService.generate_token]
        exact ⟨by omega, fun hlt => by omega⟩
      · exact absurd h (by simp)

/-- Witness for `expires_at_second_clock_reading`: a concrete registration
with first clock reading 0 and second reading 5. -/
theorem expires_at_second_clock_reading_witness :
    let svc : AuthService := ⟨"s", 24⟩
    let user : User := ⟨1, "dave", "dave@example.com", "H", "Dave", none,
      none, UserRole.User, false, true, 0, 0⟩
    let resp : AuthResponse := ⟨UserProfile.ofUser user,
      svc.generate_token user 0 "j", 5 + 3600 * 24⟩
    resp.token.claims.exp ≤ resp.expires_at
    ∧ ((0 : Int) < 5 → resp.token.claims.exp < resp.expires_at) :=
  (expires_at_second_clock_reading ⟨"s", 24⟩ (fun _ => "H") (fun _ _ => true)
      [] ⟨"dave", "dave@example.com", "password", "password", "Dave"⟩
      ⟨"dave", "pw", none⟩ 1 0 0 "j" 5 (by norm_num)).1
    _ _ rfl

/-- Outcome of a gating middleware: pass the request through, or reject it
with `403 Forbidden`. -/
inductive GuardDecision
  | pass
  | forbidden
deriving DecidableEq, Repr

/-- The trusted-host test of src/security.rs lines 92-98: the hostname is
`localhost` or ends with `.your-domain.com`. -/
def trustedHost (hostname : String) : Bool :=
  hostname == "localhost" || String.endsWith hostname ".your-domain.com"

/-- `csrf_protection` from src/security.rs lines 74-106. `originHost` and
`refererHost` are the parsed hostnames of the Origin and Referer headers
(`None` when the header is absent or unparseable). GET, HEAD and OPTIONS are
exempt; otherwise the request is rejected with Forbidden iff neither
hostname passes the trusted-host test. -/
def csrf_protection (method : String)
    (originHost refererHost : Option String) : GuardDecision :=
  if method == "GET" || method == "HEAD" || method == "OPTIONS" then
    GuardDecision.pass
  else
    let valid_origin := (originHost.map trustedHost).getD false
    let valid_referer := (refererHost.map trustedHost).getD false
    if !valid_origin && !valid_referer then
      GuardDecision.forbidden
    else
      GuardDecision.pass

/-- C3 counterexample: a POST carrying an untrusted Origin
(`evil.example`) together with a trusted Referer (`localhost`) is accepted
by the code — the Referer fallback is applied even though Origin is
present — while the claim requires rejection in this situation. -/
theorem csrf_origin_precedence_counterexample :
    trustedHost "evil.example" = false
    ∧ trustedHost "localhost" = true
    ∧ csrf_protection "POST" (some "evil.example") (some "localhost")
        = GuardDecision.pass := by
  refine ⟨?_, rfl, rfl⟩
  decide

/-- C3 (amended): a request is accepted iff its method is GET, HEAD or
OPTIONS, or the Origin header's host is trusted, or the Referer header's
host is trusted — the two header checks are a plain disjunction, with no
precedence of Origin over Referer; in particular a state-changing request
carrying neither header is rejected with Forbidden. -/
theorem csrf_accepts_iff (method : String) (origin referer : Option String) :
    csrf_protection method origin referer = GuardDecision.pass
      ↔ (method = "GET" ∨ method = "HEAD" ∨ method = "OPTIONS"
         ∨ (∃ h, origin = some h ∧ trustedHost h = true)
         ∨ (∃ h, referer = some h ∧ trustedHost h = true)) := by
  unfold csrf_protection
  by_cases hm : (method == "GET" || method == "HEAD" || method == "OPTIONS")
      = true
  · rw [if_pos hm]
    simp only [Bool.or_eq_true, beq_iff_eq] at hm
    simp only [true_iff]
    tauto
  · rw [if_neg hm]
    simp only [Bool.or_eq_true, beq_iff_eq] at hm
    have hg : ¬ method = "GET" := fun h => hm (Or.inl (Or.inl h))
    have hh : ¬ method = "HEAD" := fun h => hm (Or.inl (Or.inr h))
    have ho : ¬ method = "OPTIONS" := fun h => hm (Or.inr h)
    rcases origin with _ | oh
    · rcases referer with _ | rh
      · simp [hg, hh, ho]
      · cases htr : trustedHost rh <;> simp [hg, hh, ho, htr]
    · rcases referer with _ | rh
      · cases hto : trustedHost oh <;> simp [hg, hh, ho, hto]
      · cases hto : trustedHost oh <;> cases htr : trustedHost rh <;>
          simp [hg, hh, ho, hto, htr]

/-- Admission outcome of the rate limiter: `Allowed` passes the request on,
`Denied` is mapped to `429 Too Many Requests`. -/
inductive RateDecision
  | Allowed
  | Denied
deriving DecidableEq, Repr

/-- The rate limiter's shared map from src/security.rs line 112:
client identifier to `(request count, window start)`, with `Instant` window
starts as `Nat` clock readings. -/
abbrev RateState := List (String × Nat × Nat)

/-- The construction-time configuration of `RateLimiter` from
src/security.rs lines 111-125. -/
structure RateLimiter where
  max_requests : Nat
  window : Nat
deriving DecidableEq, Repr

/-- Client identification from src/security.rs lines 132-138: the first
comma-separated entry of the `x-forwarded-for` header, trimmed, with the
shared literal `"unknown"` bucket when the header is absent. -/
def extractClientIp (xForwardedFor : Option String) : String :=
  match xForwardedFor with
  | none => "unknown"
  | some s => ((s.splitOn ",").headD "").trim

/-- `HashMap` update used by `check_rate_limit`: replace the value stored
under `ip` if an entry exists, otherwise add a fresh entry. -/
def setEntry (m : RateState) (ip : String) (v : Nat × Nat) : RateState :=
  if m.any (fun e => e.1 == ip) then
    m.map (fun e => if e.1 == ip then (ip, v) else e)
  else
    m ++ [(ip, v)]

/-- `RateLimiter::check_rate_limit` from src/security.rs lines 127-167 as a
state transformer: first the lazy cleanup (`retain` keeps entries whose
window start is younger than `window`), then lookup-or-insert of `(0, now)`
for the caller, then reset to `(1, now)` if the window has elapsed since its
start and increment otherwise, and finally `Denied` iff the resulting count
exceeds `max_requests` (the map keeps the updated entry either way). -/
def RateLimiter.check_rate_limit (rl : RateLimiter) (m : RateState)
    (ip : String) (now : Nat) : RateDecision × RateState :=
  let m1 := m.filter (fun e => now - e.2.2 < rl.window)
  let cur : Nat × Nat :=
    match m1.find? (fun e => e.1 == ip) with
    | some e => e.2
    | none => (0, now)
  let upd : Nat × Nat :=
    if now - cur.2 ≥ rl.window then (1, now) else (cur.1 + 1, cur.2)
  (if upd.1 > rl.max_requests then RateDecision.Denied else RateDecision.Allowed,
    setEntry m1 ip upd)

/-- C6: with max_requests = 3 and window = 60, four admit calls for the same
client at instants t0 ≤ t1 ≤ t2 ≤ t3 inside one window (t3 < t0 + 60),
starting from an empty map, yield Allowed, Allowed, Allowed, Denied; a fifth
call at t4 ≥ t0 + 60 — after the window has elapsed since the window
start — yields Allowed with the counter reset to 1. -/
theorem rate_limiter_window_scenario (ip : String) (t0 t1 t2 t3 t4 : Nat)
    (h01 : t0 ≤ t1) (h12 : t1 ≤ t2) (h23 : t2 ≤ t3)
    (h3 : t3 < t0 + 60) (h4 : t0 + 60 ≤ t4) :
    let rl : RateLimiter := ⟨3, 60⟩
    let r1 := rl.check_rate_limit [] ip t0
    let r2 := rl.check_rate_limit r1.2 ip t1
    let r3 := rl.check_rate_limit r2.2 ip t2
    let r4 := rl.check_rate_limit r3.2 ip t3
    let r5 := rl.check_rate_limit r4.2 ip t4
    r1.1 = RateDecision.Allowed ∧ r2.1 = RateDecision.Allowed
    ∧ r3.1 = RateDecision.Allowed ∧ r4.1 = RateDecision.Denied
    ∧ r5.1 = RateDecision.Allowed ∧ r5.2 = [(ip, 1, t4)] := by
  have e1 : RateLimiter.check_rate_limit ⟨3, 60⟩ [] ip t0
      = (RateDecision.Allowed, [(ip, 1, t0)]) := by
    simp [RateLimiter.check_rate_limit, setEntry]
  have e2 : RateLimiter.check_rate_limit ⟨3, 60⟩ [(ip, 1, t0)] ip t1
      = (RateDecision.Allowed, [(ip, 2, t0)]) := by
    have hk : t1 - t0 < 60 := by omega
    have hne : ¬ t1 - t0 ≥ 60 := by omega
    simp [RateLimiter.check_rate_limit, setEntry, hk, hne]
  have e3 : RateLimiter.check_rate_limit ⟨3, 60⟩ [(ip, 2, t0)] ip t2
      = (RateDecision.Allowed, [(ip, 3, t0)]) := by
    have hk : t2 - t0 < 60 := by omega
    have hne : ¬ t2 - t0 ≥ 60 := by omega
    simp [RateLimiter.check_rate_limit, setEntry, hk, hne]
  have e4 : RateLimiter.check_rate_limit ⟨3, 60⟩ [(ip, 3, t0)] ip t3
      = (RateDecision.Denied, [(ip, 4, t0)]) := by
    have hk : t3 - t0 < 60 := by omega
    have hne : ¬ t3 - t0 ≥ 60 := by omega
    simp [RateLimiter.check_rate_limit, setEntry, hk, hne]
  have e5 : RateLimiter.check_rate_limit ⟨3, 60⟩ [(ip, 4, t0)] ip t4
      = (RateDecision.Allowed, [(ip, 1, t4)]) := by
    have hk : ¬ t4 - t0 < 60 := by omega
    simp [RateLimiter.check_rate_limit, setEntry, hk]
  simp [e1, e2, e3, e4, e5]

/-- Witness for `rate_limiter_window_scenario` at concrete instants
0, 1, 2, 3 and 60. -/
theorem rate_limiter_window_scenario_witness :
    let rl : RateLimiter := ⟨3, 60⟩
    let r1 := rl.check_rate_limit [] "10.0.0.1" 0
    let r2 := rl.check_rate_limit r1.2 "10.0.0.1" 1
    let r3 := rl.check_rate_limit r2.2 "10.0.0.1" 2
    let r4 := rl.check_rate_limit r3.2 "10.0.0.1" 3
    let r5 := rl.check_rate_limit r4.2 "10.0.0.1" 60
    r1.1 = RateDecision.Allowed ∧ r2.1 = RateDecision.Allowed
    ∧ r3.1 = RateDecision.Allowed ∧ r4.1 = RateDecision.Denied
    ∧ r5.1 = RateDecision.Allowed ∧ r5.2 = [("10.0.0.1", 1, 60)] :=
  rate_limiter_window_scenario "10.0.0.1" 0 1 2 3 60
    (by norm_num) (by norm_num) (by norm_num) (by norm_num) (by norm_num)

/-- `HeaderMap::insert`: set `name` to `val`, replacing any existing value
for that name (header maps hold one value per name after `insert`). -/
def insertHeader (hs : List (String × String)) (name val : String) :
    List (String × String) :=
  (name, val) :: hs.filter (fun p => p.1 != name)

/-- The `Content-Security-Policy` value of src/security.rs lines 46-56
(Rust backslash-newline continuations splice to a single line). -/
def cspValue : String :=
  "default-src \x27self\x27; script-src \x27self\x27 \x27unsafe-inline\x27 \x27unsafe-eval\x27; style-src \x27self\x27 \x27unsafe-inline\x27; img-src \x27self\x27 data: https:; font-src \x27self\x27; connect-src \x27self\x27; frame-ancestors \x27none\x27;"

/-- The `Permissions-Policy` value of src/security.rs lines 61-67. -/
def permissionsPolicyValue : String :=
  "camera=(), microphone=(), geolocation=(), payment=(), usb=(), magnetometer=(), gyroscope=()"

/-- `security_headers` from src/security.rs lines 20-70: the seven fixed
defensive headers inserted into the handler's response, in source order. -/
def security_headers (resp : List (String × String)) : List (String × String) :=
  insertHeader
    (insertHeader
      (insertHeader
        (insertHeader
          (insertHeader
            (insertHeader
              (insertHeader resp "X-Frame-Options" "DENY")
              "X-Content-Type-Options" "nosniff")
            "X-XSS-Protection" "1; mode=block")
          "Strict-Transport-Security" "max-age=31536000; includeSubDomains")
        "Content-Security-Policy" cspValue)
      "Referrer-Policy" "strict-origin-when-cross-origin")
    "Permissions-Policy" permissionsPolicyValue

/-- `request_id` from src/security.rs lines 172-193: the same freshly
generated id `rid` is inserted as `x-request-id` into the inbound request's
headers and into the outbound response's headers. -/
def request_id (req resp : List (String × String)) (rid : String) :
    List (String × String) × List (String × String) :=
  (insertHeader req "x-request-id" rid, insertHeader resp "x-request-id" rid)

/-- Looking up the name just inserted yields the inserted value. -/
theorem lookup_insertHeader_self (hs : List (String × String))
    (name val : String) :
    List.lookup name (insertHeader hs name val) = some val := by
  simp [insertHeader, List.lookup]

/-- Filtering out another name does not change a lookup. -/
theorem lookup_filter_other (hs : List (String × String)) (k n : String)
    (h : (k == n) = false) :
    List.lookup k (hs.filter (fun p => p.1 != n)) = List.lookup k hs := by
  induction hs with
  | nil => rfl
  | cons p t ih =>
    obtain ⟨pk, pv⟩ := p
    by_cases hpk : ((pk, pv).1 != n) = true
    · rw [List.filter_cons, if_pos hpk]
      by_cases hk : (k == pk) = true
      · simp [List.lookup, hk]
      · have hk' : (k == pk) = false := by
          simpa using hk
        simp [List.lookup, hk', ih]
    · rw [List.filter_cons, if_neg hpk]
      have hpn : pk = n := by
        simpa using hpk
      have hknot : (k == pk) = false := by
        rw [hpn]
        exact h
      simp [List.lookup, hknot, ih]

/-- Inserting a different name does not change a lookup. -/
theorem lookup_insertHeader_other (hs : List (String × String))
    (k n val : String) (h : (k == n) = false) :
    List.lookup k (insertHeader hs n val) = List.lookup k hs := by
  simp only [insertHeader, List.lookup, h]
  exact lookup_filter_other hs k n h

/-- The individual directives of `cspValue`, in order: `cspValue` is their
"; "-join (plus the trailing semicolon of the source literal), as proved in
`security_headers_contract`. -/
def cspDirectives : List String :=
  ["default-src \x27self\x27",
   "script-src \x27self\x27 \x27unsafe-inline\x27 \x27unsafe-eval\x27",
   "style-src \x27self\x27 \x27unsafe-inline\x27",
   "img-src \x27self\x27 data: https:",
   "font-src \x27self\x27",
   "connect-src \x27self\x27",
   "frame-ancestors \x27none\x27"]

set_option maxRecDepth 40000 in
/-- C8: every outbound response carries the contracted defensive headers
with exactly the contracted values — X-Frame-Options: DENY,
X-Content-Type-Options: nosniff, X-XSS-Protection: 1; mode=block,
Strict-Transport-Security: max-age=31536000; includeSubDomains, a
Content-Security-Policy that is the join of directives comprising
default-src 'self' plus script/style/img/font/connect/frame-ancestors
directives, Referrer-Policy: strict-origin-when-cross-origin, a
Permissions-Policy disabling camera/microphone/geolocation/payment/usb/
magnetometer/gyroscope — and the request-id middleware sets the same
`x-request-id` value on the inbound request and the outbound response. -/
theorem security_headers_contract (resp req : List (String × String))
    (rid : String) :
    List.lookup "X-Frame-Options" (security_headers resp) = some "DENY"
    ∧ List.lookup "X-Content-Type-Options" (security_headers resp)
        = some "nosniff"
    ∧ List.lookup "X-XSS-Protection" (security_headers resp)
        = some "1; mode=block"
    ∧ List.lookup "Strict-Transport-Security" (security_headers resp)
        = some "max-age=31536000; includeSubDomains"
    ∧ List.lookup "Content-Security-Policy" (security_headers resp)
        = some cspValue
    ∧ cspValue = String.intercalate "; " cspDirectives ++ ";"
    ∧ "default-src \x27self\x27" ∈ cspDirectives
    ∧ "script-src \x27self\x27 \x27unsafe-inline\x27 \x27unsafe-eval\x27"
        ∈ cspDirectives
    ∧ "style-src \x27self\x27 \x27unsafe-inline\x27" ∈ cspDirectives
    ∧ "img-src \x27self\x27 data: https:" ∈ cspDirectives
    ∧ "font-src \x27self\x27" ∈ cspDirectives
    ∧ "connect-src \x27self\x27" ∈ cspDirectives
    ∧ "frame-ancestors \x27none\x27" ∈ cspDirectives
    ∧ List.lookup "Referrer-Policy" (security_headers resp)
        = some "strict-origin-when-cross-origin"
    ∧ List.lookup "Permissions-Policy" (security_headers resp)
        = some permissionsPolicyValue
    ∧ List.lookup "x-request-id" (request_id req resp rid).1 = some rid
    ∧ List.lookup "x-request-id" (request_id req resp rid).2 = some rid := by
  refine ⟨?_, ?_, ?_, ?_, ?_, ?_, ?_, ?_, ?_, ?_, ?_, ?_, ?_, ?_, ?_, ?_, ?_⟩
  · rw [security_headers,
      lookup_insertHeader_other _ _ "Permissions-Policy" _ (by decide),
      lookup_insertHeader_other _ _ "Referrer-Policy" _ (by decide),
      lookup_insertHeader_other _ _ "Content-Security-Policy" _ (by decide),
      lookup_insertHeader_other _ _ "Strict-Transport-Security" _ (by decide),
      lookup_insertHeader_other _ _ "X-XSS-Protection" _ (by decide),
      lookup_insertHeader_other _ _ "X-Content-Type-Options" _ (by decide),
      lookup_insertHeader_self]
  · rw [security_headers,
      lookup_insertHeader_other _ _ "Permissions-Policy" _ (by decide),
      lookup_insertHeader_other _ _ "Referrer-Policy" _ (by decide),
      lookup_insertHeader_other _ _ "Content-Security-Policy" _ (by decide),
      lookup_insertHeader_other _ _ "Strict-Transport-Security" _ (by decide),
      lookup_insertHeader_other _ _ "X-XSS-Protection" _ (by decide),
      lookup_insertHeader_self]
  · rw [security_headers,
      lookup_insertHeader_other _ _ "Permissions-Policy" _ (by decide),
      lookup_insertHeader_other _ _ "Referrer-Policy" _ (by decide),
      lookup_insertHeader_other _ _ "Content-Security-Policy" _ (by decide),
      lookup_insertHeader_other _ _ "Strict-Transport-Security" _ (by decide),
      lookup_insertHeader_self]
  · rw [security_headers,
      lookup_insertHeader_other _ _ "Permissions-Policy" _ (by decide),
      lookup_insertHeader_other _ _ "Referrer-Policy" _ (by decide),
      lookup_insertHeader_other _ _ "Content-Security-Policy" _ (by decide),
      lookup_insertHeader_self]
  · rw [security_headers,
      lookup_insertHeader_other _ _ "Permissions-Policy" _ (by decide),
      lookup_insertHeader_other _ _ "Referrer-Policy" _ (by decide),
      lookup_insertHeader_self]
  · decide
  · decide
  · decide
  · decide
  · decide
  · decide
  · decide
  · decide
  · rw [security_headers,
      lookup_insertHeader_other _ _ "Permissions-Policy" _ (by decide),
      lookup_insertHeader_self]
  · rw [security_headers, lookup_insertHeader_self]
  · exact lookup_insertHeader_self req "x-request-id" rid
  · exact lookup_insertHeader_self resp "x-request-id" rid

/-- The serde JSON value space, as far as these models serialize into it
(timestamps serialize as their integer-second value in this model). -/
inductive Json
  | num (n : Int)
  | str (s : String)
  | boolean (b : Bool)
  | null
  | obj (fields : List (String × Json))

/-- Serialization of an `Option String` field under serde defaults. -/
def serializeOptStr : Option String → Json
  | none => Json.null
  | some s => Json.str s

/-- The serde rename of `UserRole` variants from src/models.rs lines 13-20. -/
def serializeRole : UserRole → Json
  | UserRole.User => Json.str "user"
  | UserRole.Author => Json.str "author"
  | UserRole.Admin => Json.str "admin"

/-- serde serialization of `User` from src/models.rs lines 33-49: every
field in declaration order except `password_hash`, which carries
`#[serde(skip_serializing)]` and is omitted. -/
def serializeUser (u : User) : List (String × Json) :=
  [("id", Json.num u.id),
   ("username", Json.str u.username),
   ("email", Json.str u.email),
   ("display_name", Json.str u.display_name),
   ("bio", serializeOptStr u.bio),
   ("avatar_url", serializeOptStr u.avatar_url),
   ("role", serializeRole u.role),
   ("email_verified", Json.boolean u.email_verified),
   ("is_active", Json.boolean u.is_active),
   ("created_at", Json.num u.created_at),
   ("updated_at", Json.num u.updated_at)]

/-- serde serialization of `UserProfile` from src/models.rs lines 51-61: all
seven fields; the struct has no password-hash field. -/
def serializeUserProfile (p : UserProfile) : List (String × Json) :=
  [("id", Json.num p.id),
   ("username", Json.str p.username),
   ("display_name", Json.str p.display_name),
   ("bio", serializeOptStr p.bio),
   ("avatar_url", serializeOptStr p.avatar_url),
   ("role", serializeRole p.role),
   ("created_at", Json.num p.created_at)]

/-- serde serialization of the token claims (the compact JWT string is a
function of the claims and the signing secret; the secret does not vary
between the two responses compared in C9, so the claims identify it). -/
def serializeClaims (c : Claims) : List (String × Json) :=
  [("sub", Json.num c.sub),
   ("username", Json.str c.username),
   ("role", serializeRole c.role),
   ("exp", Json.num c.exp),
   ("iat", Json.num c.iat),
   ("jti", Json.str c.jti)]

/-- serde serialization of `AuthResponse` from src/models.rs lines 247-252. -/
def serializeAuthResponse (r : AuthResponse) : Json :=
  Json.obj
    [("user", Json.obj (serializeUserProfile r.user)),
     ("token", Json.obj (serializeClaims r.token.claims)),
     ("expires_at", Json.num r.expires_at)]

/-- C9: the password hash is never serialized outward — two `User` records
differing only in `password_hash` have identical serialized forms, identical
`UserProfile` projections, and identical serialized `AuthResponse`s built
from those projections; no serialization in the outward path emits a
`password_hash` field, and `UserProfile` carries none. -/
theorem password_hash_never_serialized
    (id : Int) (username email ph1 ph2 display_name : String)
    (bio avatar_url : Option String) (role : UserRole)
    (email_verified is_active : Bool) (created_at updated_at : Int)
    (tok : Jwt) (expires_at : Int) :
    serializeUser ⟨id, username, email, ph1, display_name, bio, avatar_url,
        role, email_verified, is_active, created_at, updated_at⟩
      = serializeUser ⟨id, username, email, ph2, display_name, bio,
        avatar_url, role, email_verified, is_active, created_at, updated_at⟩
    ∧ UserProfile.ofUser ⟨id, username, email, ph1, display_name, bio,
        avatar_url, role, email_verified, is_active, created_at, updated_at⟩
      = UserProfile.ofUser ⟨id, username, email, ph2, display_name, bio,
        avatar_url, role, email_verified, is_active, created_at, updated_at⟩
    ∧ serializeAuthResponse ⟨UserProfile.ofUser ⟨id, username, email, ph1,
        display_name, bio, avatar_url, role, email_verified, is_active,
        created_at, updated_at⟩, tok, expires_at⟩
      = serializeAuthResponse ⟨UserProfile.ofUser ⟨id, username, email, ph2,
        display_name, bio, avatar_url, role, email_verified, is_active,
        created_at, updated_at⟩, tok, expires_at⟩
    ∧ "password_hash" ∉ (serializeUser ⟨id, username, email, ph1,
        display_name, bio, avatar_url, role, email_verified, is_active,
        created_at, updated_at⟩).map Prod.fst
    ∧ "password_hash" ∉ (serializeUserProfile (UserProfile.ofUser ⟨id,
        username, email, ph1, display_name, bio, avatar_url, role,
        email_verified, is_active, created_at, updated_at⟩)).map Prod.fst := by
  refine ⟨rfl, rfl, rfl, ?_, ?_⟩
  · simp [serializeUser]
  · simp [serializeUserProfile]
